import Mathlib

/-
  Shallow embedding of the SDS011 serial driver (sds011_v2.py) and
  proofs about its reply decoding, configuration and read-dispatch
  behaviour.

  Bytes are modelled as natural numbers, byte strings as lists of
  naturals.  The serial port is modelled as a queue of chunks: each
  call to ser.read(size=10) pops the next chunk (truncated to 10
  bytes) or returns the empty string when the queue is exhausted.
  Written command frames are logged in ser_writes, and the timeout in
  effect at each read call is logged in reads_log, so that claims
  about writes and per-read timeouts are observable.  Python
  exceptions raised by the driver (IOError on checksum or operation
  mismatch, IndexError on out-of-range indexing, TypeError on a
  bytes/int comparison) become values of PyErr in an Except result.
-/

namespace SDS011

/-- Python exceptions that the driver code can raise. -/
inductive PyErr where
  | ioChecksum    -- IOError: checksum invalid
  | ioOpMismatch  -- IOError: response does not match operation
  | indexError    -- IndexError: byte index out of range
  | typeError     -- TypeError: unsupported comparison of bytes with int
  deriving DecidableEq, Repr

/-- A value returned by the reply-reading path: either raw bytes
(possibly empty, on silence) or a decoded reading, the pair of
PM2.5 and PM10 concentrations as exact rationals. -/
inductive Reply where
  | raw (bs : List Nat)
  | reading (pm25 pm10 : ℚ)
  deriving DecidableEq, Repr

/-- The session state: the serial port (pending reply chunks, the
current per-read timeout, the log of written frames, the log of the
timeout in effect at each read) plus the session default timeout. -/
structure Session where
  ser_pending : List (List Nat)
  ser_timeout : Nat
  ser_writes : List (List Nat)
  reads_log : List Nat
  default_timeout : Nat
  deriving DecidableEq, Repr

/-! Protocol constants, from the class body of SDS011. -/

def HEAD : List Nat := [0xAA]
def CMD_ID : List Nat := [0xB4]
def TAIL : List Nat := [0xAB]

def REPORTING_MODE_SETTING : Nat := 0x02
def QUERY_DATA : Nat := 0x04
def SLEEP_SETTING : Nat := 0x06
def WORK_PERIOD_SETTING : Nat := 0x08

def READ_SETTING : Nat := 0x00
def WRITE_SETTING : Nat := 0x01

def ACTIVE_MODE : Nat := 0x00
def QUERY_MODE : Nat := 0x01

def SLEEP_MODE : Nat := 0x00
def WORK_MODE : Nat := 0x01

def SETTING_RESPONSE : Nat := 0xC5
def DATA_RESPONSE : Nat := 0xC0

/-- The 19-byte wire frame built by `_execute`: HEAD, CMD_ID, the
command body extended with the two broadcast address bytes 0xFF 0xFF,
the checksum (sum of the body modulo 256), TAIL. -/
def cmd_frame (cmd : List Nat) : List Nat :=
  HEAD ++ CMD_ID ++ (cmd ++ [0xFF, 0xFF])
    ++ [(cmd ++ [0xFF, 0xFF]).sum % 256] ++ TAIL

/-- `_execute`: write the encoded command frame to the serial port. -/
def execute (s : Session) (cmd : List Nat) : Session :=
  { s with ser_writes := s.ser_writes ++ [cmd_frame cmd] }

/-- `int.from_bytes(bs, byteorder=little)`. -/
def from_bytes_little : List Nat → Nat
  | [] => 0
  | b :: rest => b + 256 * from_bytes_little rest

/-- `_decode_data`: PM2.5 from bytes 2-3 little-endian divided by 10,
PM10 from bytes 4-5 little-endian divided by 10. -/
def decode_data (raw : List Nat) : Reply :=
  .reading ((from_bytes_little ((raw.drop 2).take 2) : ℚ) / 10)
           ((from_bytes_little ((raw.drop 4).take 2) : ℚ) / 10)

/-- The body of `_get_reply` after the initial timeout adjustment.
The call ser.read(size=10) is inlined: it pops the next pending chunk
(truncated to 10 bytes) or yields the empty byte string, logging the
timeout in effect.  The default timeout is then restored, and: an
empty reply is returned as-is; a frame too short for the index
access raw[8] raises IndexError; a checksum mismatch over bytes 2-7
raises IOError; a DATA frame is decoded when no op_id was expected,
and skipped (read the next reply) when one was; a SETTING frame is
checked against the expected op_id byte when one was given; anything
else is returned raw. -/
def get_reply_core (s : Session) (op_id : Option Nat) :
    Except PyErr Reply × Session :=
  match hp : s.ser_pending with
  | [] =>
      let s2 := { s with reads_log := s.reads_log ++ [s.ser_timeout],
                         ser_timeout := s.default_timeout }
      (.ok (.raw []), s2)
  | c :: rest =>
      let raw := c.take 10
      let s2 := { s with ser_pending := rest,
                         reads_log := s.reads_log ++ [s.ser_timeout],
                         ser_timeout := s.default_timeout }
      if raw = [] then (.ok (.raw raw), s2)
      else
        match raw[8]? with
        | none => (.error .indexError, s2)
        | some c8 =>
            if ((raw.drop 2).take 6).sum % 256 ≠ c8 then
              (.error .ioChecksum, s2)
            else
              let response_type := raw.getD 1 0
              if response_type = DATA_RESPONSE then
                match op_id with
                | none => (.ok (decode_data raw), s2)
                | some oid => get_reply_core s2 (some oid)
              else if response_type = SETTING_RESPONSE then
                match op_id with
                | none => (.ok (.raw raw), s2)
                | some oid =>
                    if raw.getD 2 0 ≠ oid then (.error .ioOpMismatch, s2)
                    else (.ok (.raw raw), s2)
              else (.ok (.raw raw), s2)
termination_by s.ser_pending.length
decreasing_by simp [hp]

/-- `_get_reply`: an explicit per-call timeout, when given and truthy,
replaces the serial timeout for the next read (the core always
restores the default afterwards). -/
def get_reply (s : Session) (op_id : Option Nat) (timeout : Option Nat) :
    Except PyErr Reply × Session :=
  let s1 := match timeout with
    | some t => if t = 0 then s else { s with ser_timeout := t }
    | none => s
  get_reply_core s1 op_id

/-- `query`: send the query-data command, then read one reply with no
expected op_id. -/
def query (s : Session) : Except PyErr Reply × Session :=
  let s1 := execute s ([QUERY_DATA] ++ List.replicate 12 0)
  get_reply s1 none none

/-- `_sleep` with write=True: send a sleep-setting write command and
read the reply, expecting the sleep-setting op_id. -/
def sleep_op (s : Session) (mode : Nat) : Except PyErr Reply × Session :=
  let s1 := execute s ([SLEEP_SETTING, WRITE_SETTING, mode]
    ++ List.replicate 10 0)
  get_reply s1 (some SLEEP_SETTING) none

/-- A reply value is falsy in Python exactly when it is the empty
byte string. -/
def reply_falsy : Reply → Bool
  | .raw [] => true
  | .raw (_ :: _) => false
  | .reading _ _ => false

/-- `wake`: one sleep-setting WORK command; if the reply is falsy the
guard, namely not awake and attempts below 5 with attempts = 0,
always takes the first branch, so exactly one more attempt is made
and its result is returned, whatever it is.  The branch that logs
failure after 5 attempts is unreachable.  An exception from either
attempt propagates. -/
def wake (s : Session) : Except PyErr Reply × Session :=
  match sleep_op s WORK_MODE with
  | (.error e, s1) => (.error e, s1)
  | (.ok r, s1) =>
      if reply_falsy r then sleep_op s1 WORK_MODE
      else (.ok r, s1)

/-- The `reporting_mode` property getter: send a reporting-mode READ
command, read a reply expecting the reporting-mode op_id, and report
whether byte 4 of the reply equals QUERY_MODE.  Indexing byte 4 of an
empty or short reply raises IndexError. -/
def reporting_mode_get (s : Session) : Except PyErr Bool × Session :=
  let s1 := execute s ([REPORTING_MODE_SETTING, READ_SETTING]
    ++ List.replicate 11 0)
  match get_reply s1 (some REPORTING_MODE_SETTING) none with
  | (.error e, s2) => (.error e, s2)
  | (.ok (.raw bs), s2) =>
      match bs[4]? with
      | none => (.error .indexError, s2)
      | some b => (.ok (b = QUERY_MODE), s2)
  | (.ok (.reading _ _), s2) => (.error .indexError, s2)

/-- The `work_period` property getter: send a work-period READ
command, read a reply expecting the work-period op_id, and return
byte 4 of the reply. -/
def work_period_get (s : Session) : Except PyErr Nat × Session :=
  let s1 := execute s ([WORK_PERIOD_SETTING, READ_SETTING]
    ++ List.replicate 11 0)
  match get_reply s1 (some WORK_PERIOD_SETTING) none with
  | (.error e, s2) => (.error e, s2)
  | (.ok (.raw bs), s2) =>
      match bs[4]? with
      | none => (.error .indexError, s2)
      | some b => (.ok b, s2)
  | (.ok (.reading _ _), s2) => (.error .indexError, s2)

/-- A dynamically-typed Python value: the work-period setter stores
either the int it was given or the bytes constant CONTINUOUS_MODE. -/
inductive PyVal where
  | int (n : Int)
  | bytes (bs : List Nat)
  deriving DecidableEq, Repr

/-- The Python comparison of a value with an int bound: defined for
ints, a TypeError for bytes. -/
def py_gt (v : PyVal) (n : Int) : Except PyErr Bool :=
  match v with
  | .int m => .ok (m > n)
  | .bytes _ => .error .typeError

/-- The `work_period` property setter, called with an int.  A negative
argument is replaced by the bytes constant CONTINUOUS_MODE (the
one-byte string 0x00); the subsequent comparison of work_time with 30
then raises TypeError.  Otherwise values above 30 are clamped to 30
with a logged warning, the work-period WRITE command is sent, and
byte 4 of the reply is returned as the confirmed value. -/
def work_period_set (s : Session) (work_time : Int) :
    Except PyErr Nat × Session :=
  let v : PyVal := if work_time < 0 then .bytes [0x00] else .int work_time
  match py_gt v 30 with
  | .error e => (.error e, s)
  | .ok gt =>
      let n : Int := if gt then 30 else work_time
      let s1 := execute s ([WORK_PERIOD_SETTING, WRITE_SETTING, n.toNat]
        ++ List.replicate 10 0)
      match get_reply s1 (some WORK_PERIOD_SETTING) none with
      | (.error e, s2) => (.error e, s2)
      | (.ok (.raw bs), s2) =>
          match bs[4]? with
          | none => (.error .indexError, s2)
          | some b => (.ok b, s2)
      | (.ok (.reading _ _), s2) => (.error .indexError, s2)

/-- `read`: consult the reporting-mode getter (a command plus reply of
its own); in query mode delegate to `query`; otherwise consult the
work-period getter (another command plus reply) and wait for a pushed
frame with timeout work_period * 60 + 1 seconds. -/
def read (s : Session) : Except PyErr Reply × Session :=
  match reporting_mode_get s with
  | (.error e, s1) => (.error e, s1)
  | (.ok isQuery, s1) =>
      if isQuery then query s1
      else
        match work_period_get s1 with
        | (.error e, s2) => (.error e, s2)
        | (.ok wp, s2) => get_reply s2 none (some (wp * 60 + 1))

/-- A well-formed 10-byte SETTING reply frame: standard header and
tail, response type 0xC5, the given operation-id byte and two payload
bytes, broadcast id bytes, and a correct checksum over bytes 2-7. -/
def settingFrame (op b3 b4 : Nat) : List Nat :=
  [0xAA, 0xC5, op, b3, b4, 0, 0xFF, 0xFF,
   (op + b3 + b4 + 0 + 0xFF + 0xFF) % 256, 0xAB]

/-- A full 10-byte DATA reply whose transmitted checksum byte (2) is
off by one from the computed payload sum (1). -/
def badck : List Nat := [0xAA, 0xC0, 1, 0, 0, 0, 0, 0, 2, 0xAB]

/-! Helper lemmas about the reply-reading core. -/

lemma get_reply_core_ck (raw : List Nat) (rest : List (List Nat))
    (op_id : Option Nat) (st : Nat) (sw : List (List Nat)) (rl : List Nat)
    (dt : Nat) (hlen : raw.length = 10)
    (hck : ((raw.drop 2).take 6).sum % 256 ≠ raw.getD 8 0) :
    (get_reply_core ⟨raw :: rest, st, sw, rl, dt⟩ op_id).1
      = .error .ioChecksum := by
  have htake : raw.take 10 = raw := List.take_of_length_le (by omega)
  have hne : raw ≠ [] := by intro h; rw [h] at hlen; simp at hlen
  have h8 : raw[8]? = some (raw.getD 8 0) := by
    rw [List.getD_eq_getElem _ _ (by omega)]
    exact List.getElem?_eq_getElem (by omega)
  rw [get_reply_core.eq_def]
  simp only [htake, hne, h8]
  rw [if_neg not_false, if_pos hck]

lemma get_reply_core_short (raw : List Nat) (rest : List (List Nat))
    (op_id : Option Nat) (st : Nat) (sw : List (List Nat)) (rl : List Nat)
    (dt : Nat) (hlo : 1 ≤ raw.length) (hhi : raw.length ≤ 8) :
    (get_reply_core ⟨raw :: rest, st, sw, rl, dt⟩ op_id).1
      = .error .indexError := by
  have htake : raw.take 10 = raw := List.take_of_length_le (by omega)
  have hne : raw ≠ [] := by intro h; rw [h] at hlo; simp at hlo
  have h8 : raw[8]? = none := by
    rw [List.getElem?_eq_none_iff]
    omega
  rw [get_reply_core.eq_def]
  simp only [htake, hne, h8]
  rw [if_neg not_false]

lemma get_reply_core_setting_none (op b3 b4 : Nat) (rest : List (List Nat))
    (st : Nat) (sw : List (List Nat)) (rl : List Nat) (dt : Nat) :
    get_reply_core ⟨settingFrame op b3 b4 :: rest, st, sw, rl, dt⟩ none
      = (.ok (.raw (settingFrame op b3 b4)),
         ⟨rest, dt, sw, rl ++ [st], dt⟩) := by
  rw [get_reply_core.eq_def]
  simp only [settingFrame, DATA_RESPONSE, SETTING_RESPONSE, List.take,
    List.drop, List.sum_cons, List.sum_nil, List.getElem?_cons_succ,
    List.getElem?_cons_zero, List.getD, Option.getD_some]
  norm_num
  intro _ h
  exact (h (by omega)).elim

lemma get_reply_core_setting_some (op b3 b4 : Nat) (rest : List (List Nat))
    (st : Nat) (sw : List (List Nat)) (rl : List Nat) (dt : Nat) :
    get_reply_core ⟨settingFrame op b3 b4 :: rest, st, sw, rl, dt⟩ (some op)
      = (.ok (.raw (settingFrame op b3 b4)),
         ⟨rest, dt, sw, rl ++ [st], dt⟩) := by
  rw [get_reply_core.eq_def]
  simp only [settingFrame, DATA_RESPONSE, SETTING_RESPONSE, List.take,
    List.drop, List.sum_cons, List.sum_nil, List.getElem?_cons_succ,
    List.getElem?_cons_zero, List.getD, Option.getD_some]
  norm_num
  intro _ h
  exact (h (by omega)).elim

lemma settingFrame_getElem4 (op b3 b4 : Nat) :
    (settingFrame op b3 b4)[4]? = some b4 := by
  simp [settingFrame]

lemma get_reply_core_none_effects (s : Session) :
    (get_reply_core s none).2.ser_writes = s.ser_writes ∧
    (get_reply_core s none).2.reads_log = s.reads_log ++ [s.ser_timeout] := by
  obtain ⟨p, st, sw, rl, dt⟩ := s
  cases p with
  | nil => rw [get_reply_core.eq_def]; simp
  | cons c rest =>
      rw [get_reply_core.eq_def]
      simp only
      repeat' split
      all_goals simp_all

lemma get_reply_core_restores (n : Nat) :
    ∀ (s : Session) (op_id : Option Nat), s.ser_pending.length ≤ n →
      (get_reply_core s op_id).2.ser_timeout = s.default_timeout ∧
      (get_reply_core s op_id).2.default_timeout = s.default_timeout := by
  induction n with
  | zero =>
      intro s op_id h
      obtain ⟨p, st, sw, rl, dt⟩ := s
      simp only at h
      have hp : p = [] := List.length_eq_zero.mp (Nat.le_zero.mp h)
      subst hp
      rw [get_reply_core.eq_def]
      simp
  | succ n ih =>
      intro s op_id h
      obtain ⟨p, st, sw, rl, dt⟩ := s
      simp only at h
      cases p with
      | nil =>
          rw [get_reply_core.eq_def]
          simp
      | cons c rest =>
          rw [get_reply_core.eq_def]
          simp only
          repeat' split
          all_goals simp_all

/-! The claims. -/

/-- Claim C1 (confirmed): for every full 10-byte reply frame whose
transmitted checksum byte (byte 8) differs from the sum, modulo 256,
of its six payload bytes (bytes 2-7), the reply-decoding path fails
with the checksum error and never returns a decoded reading,
whatever op_id or timeout the call used. -/
theorem checksum_mismatch_always_rejected
    (s : Session) (raw : List Nat) (rest : List (List Nat))
    (op_id timeout : Option Nat)
    (hp : s.ser_pending = raw :: rest)
    (hlen : raw.length = 10)
    (hck : ((raw.drop 2).take 6).sum % 256 ≠ raw.getD 8 0) :
    (get_reply s op_id timeout).1 = .error .ioChecksum := by
  obtain ⟨pending, st, sw, rl, dt⟩ := s
  simp only at hp
  subst hp
  unfold get_reply
  cases timeout with
  | none => exact get_reply_core_ck raw rest op_id st sw rl dt hlen hck
  | some t =>
      by_cases ht : t = 0
      · simp only [ht, if_pos rfl]
        exact get_reply_core_ck raw rest op_id st sw rl dt hlen hck
      · simp only [if_neg ht]
        exact get_reply_core_ck raw rest op_id t sw rl dt hlen hck

/-- Claim C1 witness: a concrete 10-byte frame whose checksum byte is
off by one (transmitted 2, computed 1) is rejected. -/
theorem checksum_mismatch_witness :
    (badck.length = 10 ∧ ((badck.drop 2).take 6).sum % 256 ≠ badck.getD 8 0) ∧
    (get_reply ⟨[badck], 2, [], [], 2⟩ none none).1 = .error .ioChecksum :=
  ⟨⟨by decide, by decide⟩,
   checksum_mismatch_always_rejected ⟨[badck], 2, [], [], 2⟩ badck [] none none
     rfl (by decide) (by decide)⟩

/-- Claim C2 (code bug): against a transport that never returns any
bytes, wake performs exactly 2 attempted command writes, not 5, and
then returns the empty reply as a success value instead of surfacing
a timeout error: the attempt counter is tested by an if, not a loop,
so the branch announcing failure after 5 attempts is unreachable. -/
theorem wake_on_silence_two_writes_no_error :
    (wake ⟨[], 2, [], [], 2⟩).1 = .ok (.raw []) ∧
    (wake ⟨[], 2, [], [], 2⟩).2.ser_writes.length = 2 := by
  constructor <;>
    simp [wake, sleep_op, get_reply, get_reply_core, execute, reply_falsy]

/-- Claim C3 (code bug): setting the work period to -1 does not clamp
to 0: the setter replaces the argument by the bytes constant
CONTINUOUS_MODE and the comparison with 30 then raises TypeError
before any command is written.  The over-range case works as
specified: setting 45 clamps to 30, writes the command, and returns
the device-confirmed value 30. -/
theorem work_period_set_neg_crashes_45_clamps :
    work_period_set ⟨[settingFrame 8 1 30], 2, [], [], 2⟩ (-1)
      = (.error .typeError, ⟨[settingFrame 8 1 30], 2, [], [], 2⟩) ∧
    (work_period_set ⟨[settingFrame 8 1 30], 2, [], [], 2⟩ 45).1 = .ok 30 := by
  constructor <;>
    simp [work_period_set, py_gt, get_reply, get_reply_core, execute,
          settingFrame, WORK_PERIOD_SETTING, DATA_RESPONSE, SETTING_RESPONSE,
          WRITE_SETTING, cmd_frame, HEAD, CMD_ID, TAIL]

/-- Claim C4 counterexample: in active mode, read issues command
writes before waiting — on a concrete transport whose first two
replies report active mode and work period 1, read leaves two
written command frames, not zero. -/
theorem read_active_mode_issues_commands_cex :
    (read ⟨[settingFrame 2 0 0, settingFrame 8 0 1,
            [0xAA, 0xC0, 1, 0, 0, 0, 0, 0, 1, 0xAB]],
           2, [], [], 2⟩).2.ser_writes.length = 2 := by
  simp [read, reporting_mode_get, work_period_get, query, execute, get_reply,
        get_reply_core, settingFrame, decode_data, from_bytes_little,
        REPORTING_MODE_SETTING, WORK_PERIOD_SETTING, READ_SETTING, QUERY_DATA,
        QUERY_MODE, DATA_RESPONSE, SETTING_RESPONSE, cmd_frame, HEAD, CMD_ID,
        TAIL]

/-- Claim C4 (corrected): whenever the device reports a non-query
mode, read issues exactly two command writes before waiting — the
reporting-mode read and the work-period read, each consuming a reply
— and then performs exactly one raw read whose timeout is the
confirmed work period times 60 plus 1 seconds. -/
theorem read_active_mode_commands_and_timeout
    (s : Session) (m wp : Nat) (rest : List (List Nat))
    (hp : s.ser_pending
      = settingFrame REPORTING_MODE_SETTING 0 m
          :: settingFrame WORK_PERIOD_SETTING 0 wp :: rest)
    (hm : m ≠ QUERY_MODE) :
    (read s).2.ser_writes
      = s.ser_writes
        ++ [cmd_frame ([REPORTING_MODE_SETTING, READ_SETTING]
              ++ List.replicate 11 0),
            cmd_frame ([WORK_PERIOD_SETTING, READ_SETTING]
              ++ List.replicate 11 0)] ∧
    (read s).2.reads_log
      = s.reads_log ++ [s.ser_timeout, s.default_timeout, wp * 60 + 1] := by
  obtain ⟨pending, st, sw, rl, dt⟩ := s
  simp only at hp
  subst hp
  unfold read reporting_mode_get work_period_get execute get_reply
  dsimp only
  rw [get_reply_core_setting_some]
  simp only [settingFrame_getElem4]
  rw [if_neg (by simpa using hm)]
  try dsimp only
  rw [get_reply_core_setting_some]
  simp only [settingFrame_getElem4]
  try dsimp only
  rw [if_neg (by omega : ¬(wp * 60 + 1 = 0))]
  obtain ⟨hw, hr⟩ := get_reply_core_none_effects
    ⟨rest, wp * 60 + 1,
     sw ++ [cmd_frame ([REPORTING_MODE_SETTING, READ_SETTING]
         ++ List.replicate 11 0)]
        ++ [cmd_frame ([WORK_PERIOD_SETTING, READ_SETTING]
         ++ List.replicate 11 0)],
     rl ++ [st] ++ [dt], dt⟩
  constructor
  · rw [hw]
    simp
  · rw [hr]
    simp

/-- Claim C4 witness: with a confirmed work period of 1 minute the
wait read uses a timeout of 61 seconds, after two command writes. -/
theorem read_active_mode_commands_and_timeout_witness :
    (read ⟨[settingFrame REPORTING_MODE_SETTING 0 0,
            settingFrame WORK_PERIOD_SETTING 0 1,
            [0xAA, 0xC0, 1, 0, 0, 0, 0, 0, 1, 0xAB]], 2, [], [], 2⟩).2.ser_writes
      = [cmd_frame ([REPORTING_MODE_SETTING, READ_SETTING]
           ++ List.replicate 11 0),
         cmd_frame ([WORK_PERIOD_SETTING, READ_SETTING]
           ++ List.replicate 11 0)] ∧
    (read ⟨[settingFrame REPORTING_MODE_SETTING 0 0,
            settingFrame WORK_PERIOD_SETTING 0 1,
            [0xAA, 0xC0, 1, 0, 0, 0, 0, 0, 1, 0xAB]], 2, [], [], 2⟩).2.reads_log
      = [2, 2, 61] := by
  have h := read_active_mode_commands_and_timeout
    ⟨[settingFrame REPORTING_MODE_SETTING 0 0,
      settingFrame WORK_PERIOD_SETTING 0 1,
      [0xAA, 0xC0, 1, 0, 0, 0, 0, 0, 1, 0xAB]], 2, [], [], 2⟩ 0 1
    [[0xAA, 0xC0, 1, 0, 0, 0, 0, 0, 1, 0xAB]] rfl (by decide)
  simpa using h

/-- Claim C5 counterexample: in query mode, read issues two command
writes to the transport (the reporting-mode read, then the query
command), not exactly one. -/
theorem read_query_mode_two_writes_cex :
    (read ⟨[settingFrame 2 0 1, [0xAA, 0xC0, 1, 0, 0, 0, 0, 0, 1, 0xAB]],
           2, [], [], 2⟩).2.ser_writes.length = 2 := by
  simp [read, reporting_mode_get, work_period_get, query, execute, get_reply,
        get_reply_core, settingFrame, decode_data, from_bytes_little,
        REPORTING_MODE_SETTING, WORK_PERIOD_SETTING, READ_SETTING, QUERY_DATA,
        QUERY_MODE, DATA_RESPONSE, SETTING_RESPONSE, cmd_frame, HEAD, CMD_ID,
        TAIL]

/-- Claim C5 (corrected): whenever the device reports query mode,
read behaves exactly as query applied to the session state that
remains after the reporting-mode check — one command write and one
consumed reply earlier than the claim stated. -/
theorem read_query_mode_after_check_is_query
    (s : Session) (b3 : Nat) (rest : List (List Nat))
    (hp : s.ser_pending
      = settingFrame REPORTING_MODE_SETTING b3 QUERY_MODE :: rest) :
    read s = query ⟨rest, s.default_timeout,
      s.ser_writes
        ++ [cmd_frame ([REPORTING_MODE_SETTING, READ_SETTING]
              ++ List.replicate 11 0)],
      s.reads_log ++ [s.ser_timeout], s.default_timeout⟩ := by
  obtain ⟨pending, st, sw, rl, dt⟩ := s
  simp only at hp
  subst hp
  unfold read reporting_mode_get execute get_reply
  dsimp only
  rw [get_reply_core_setting_some]
  simp [settingFrame, QUERY_MODE]

/-- Claim C5 witness: the equivalence at a concrete query-mode
session. -/
theorem read_query_mode_after_check_is_query_witness :
    read ⟨[settingFrame REPORTING_MODE_SETTING 0 QUERY_MODE,
           [0xAA, 0xC0, 1, 0, 0, 0, 0, 0, 1, 0xAB]], 2, [], [], 2⟩
      = query ⟨[[0xAA, 0xC0, 1, 0, 0, 0, 0, 0, 1, 0xAB]], 2,
          [cmd_frame ([REPORTING_MODE_SETTING, READ_SETTING]
             ++ List.replicate 11 0)], [2], 2⟩ :=
  read_query_mode_after_check_is_query
    ⟨[settingFrame REPORTING_MODE_SETTING 0 QUERY_MODE,
      [0xAA, 0xC0, 1, 0, 0, 0, 0, 0, 1, 0xAB]], 2, [], [], 2⟩ 0
    [[0xAA, 0xC0, 1, 0, 0, 0, 0, 0, 1, 0xAB]] rfl

/-- Claim C6 counterexample: a 10-byte reply whose header byte is
0x00 (not 0xAA) and whose tail byte is 0x00 (not 0xAB) but whose
checksum is correct is not rejected: it is decoded and returned as a
reading. -/
theorem header_tail_not_checked_cex :
    (get_reply ⟨[[0x00, 0xC0, 1, 0, 0, 0, 0, 0, 1, 0x00]],
                2, [], [], 2⟩ none none).1
      = .ok (.reading ((1 : ℚ) / 10) 0) := by
  simp [get_reply, get_reply_core, decode_data, from_bytes_little,
        DATA_RESPONSE, SETTING_RESPONSE]

/-- Claim C6 (corrected): reply decoding never inspects the header or
tail bytes: any 10-byte frame with DATA response type and a valid
checksum over bytes 2-7 is decoded and returned as a reading,
whatever its header and tail bytes are. -/
theorem header_tail_ignored_frame_decoded
    (s : Session) (hd tl p2 p3 p4 p5 p6 p7 : Nat) (rest : List (List Nat))
    (hp : s.ser_pending
      = [hd, 0xC0, p2, p3, p4, p5, p6, p7,
         (p2 + p3 + p4 + p5 + p6 + p7) % 256, tl] :: rest) :
    (get_reply s none none).1
      = .ok (.reading (((p2 + 256 * p3 : ℕ) : ℚ) / 10)
                      (((p4 + 256 * p5 : ℕ) : ℚ) / 10)) := by
  obtain ⟨pending, st, sw, rl, dt⟩ := s
  simp only at hp
  subst hp
  unfold get_reply
  rw [get_reply_core.eq_def]
  simp only [decode_data, from_bytes_little, DATA_RESPONSE, SETTING_RESPONSE,
    List.take, List.drop, List.sum_cons, List.sum_nil, List.getElem?_cons_succ,
    List.getElem?_cons_zero, List.getD, Option.getD_some]
  norm_num
  rw [if_neg (by simp), if_pos (by omega)]

/-- Claim C6 witness: a frame with zero header and tail decodes to
the PM values of its payload. -/
theorem header_tail_ignored_frame_decoded_witness :
    (get_reply ⟨[[0, 0xC0, 0xD4, 0x04, 0x3A, 0x0A, 0, 0,
                  (0xD4 + 0x04 + 0x3A + 0x0A + 0 + 0) % 256, 0]],
                2, [], [], 2⟩ none none).1
      = .ok (.reading (((0xD4 + 256 * 0x04 : ℕ) : ℚ) / 10)
                      (((0x3A + 256 * 0x0A : ℕ) : ℚ) / 10)) :=
  header_tail_ignored_frame_decoded
    ⟨[[0, 0xC0, 0xD4, 0x04, 0x3A, 0x0A, 0, 0,
       (0xD4 + 0x04 + 0x3A + 0x0A + 0 + 0) % 256, 0]], 2, [], [], 2⟩
    0 0 0xD4 0x04 0x3A 0x0A 0 0 [] rfl

/-- Claim C7 counterexample: query on a checksum-valid SETTING-tagged
reply does not fail with a protocol error: it returns the raw frame
bytes as a success value. -/
theorem query_setting_reply_returned_cex :
    (query ⟨[settingFrame 2 0 1], 2, [], [], 2⟩).1
      = .ok (.raw (settingFrame 2 0 1)) := by
  unfold query execute get_reply
  rw [get_reply_core_setting_none]

/-- Claim C7 (corrected): query on any checksum-valid SETTING-tagged
reply returns the raw frame bytes undecoded (with only a logged
warning); no error is raised and no reading is produced. -/
theorem query_setting_reply_returns_raw
    (s : Session) (op b3 b4 : Nat) (rest : List (List Nat))
    (hp : s.ser_pending = settingFrame op b3 b4 :: rest) :
    (query s).1 = .ok (.raw (settingFrame op b3 b4)) := by
  obtain ⟨pending, st, sw, rl, dt⟩ := s
  simp only at hp
  subst hp
  unfold query execute get_reply
  rw [get_reply_core_setting_none]

/-- Claim C7 witness: a concrete SETTING reply to query comes back
raw. -/
theorem query_setting_reply_returns_raw_witness :
    (query ⟨[settingFrame 6 1 1], 3, [], [], 3⟩).1
      = .ok (.raw (settingFrame 6 1 1)) :=
  query_setting_reply_returns_raw ⟨[settingFrame 6 1 1], 3, [], [], 3⟩ 6 1 1 []
    rfl

/-- Claim C8 counterexample: decoding the fixture frame AA C0 D4 04
3A 0A DB 0A A5 AB does not yield a PM2.5 value of 124.4. -/
theorem decode_fixture_not_124_4 :
    decode_data [0xAA, 0xC0, 0xD4, 0x04, 0x3A, 0x0A, 0xDB, 0x0A, 0xA5, 0xAB]
      ≠ .reading (124.4 : ℚ) (261.8 : ℚ) := by
  norm_num [decode_data, from_bytes_little]

/-- Claim C8 (corrected): decoding the fixture frame yields PM2.5 =
123.6 (bytes 2-3 little-endian give 0x04D4 = 1236, divided by 10) and
PM10 = 261.8 (bytes 4-5 little-endian give 0x0A3A = 2618, divided by
10). -/
theorem decode_fixture_123_6 :
    decode_data [0xAA, 0xC0, 0xD4, 0x04, 0x3A, 0x0A, 0xDB, 0x0A, 0xA5, 0xAB]
      = .reading (123.6 : ℚ) (261.8 : ℚ) := by
  norm_num [decode_data, from_bytes_little]

/-- Claim C9 (code bug): a non-empty incomplete frame of 1 to 8 bytes
does not produce a timeout result: the index access raw[8] in the
checksum test is out of bounds and raises IndexError, whatever op_id
or timeout the call used. -/
theorem short_frame_index_error
    (s : Session) (raw : List Nat) (rest : List (List Nat))
    (op_id timeout : Option Nat)
    (hp : s.ser_pending = raw :: rest)
    (hlo : 1 ≤ raw.length) (hhi : raw.length ≤ 8) :
    (get_reply s op_id timeout).1 = .error .indexError := by
  obtain ⟨pending, st, sw, rl, dt⟩ := s
  simp only at hp
  subst hp
  unfold get_reply
  cases timeout with
  | none => exact get_reply_core_short raw rest op_id st sw rl dt hlo hhi
  | some t =>
      by_cases ht : t = 0
      · simp only [ht, if_pos rfl]
        exact get_reply_core_short raw rest op_id st sw rl dt hlo hhi
      · simp only [if_neg ht]
        exact get_reply_core_short raw rest op_id t sw rl dt hlo hhi

/-- Claim C9 witness: a single stray header byte crashes the decoding
path with IndexError. -/
theorem short_frame_index_error_witness :
    (1 ≤ [0xAA].length ∧ [0xAA].length ≤ 8) ∧
    (get_reply ⟨[[0xAA]], 2, [], [], 2⟩ none none).1 = .error .indexError :=
  ⟨⟨by decide, by decide⟩,
   short_frame_index_error ⟨[[0xAA]], 2, [], [], 2⟩ [0xAA] [] none none
     rfl (by decide) (by decide)⟩

/-- Claim C10 (confirmed): after every call to the reply-reading
operation — whatever it returns and whatever op_id or per-call
timeout it was given — the per-read timeout of the serial port
equals the session default timeout again, and the default itself is
unchanged; a custom timeout never persists into later reads. -/
theorem get_reply_restores_default_timeout
    (s : Session) (op_id timeout : Option Nat) :
    (get_reply s op_id timeout).2.ser_timeout = s.default_timeout ∧
    (get_reply s op_id timeout).2.default_timeout = s.default_timeout := by
  unfold get_reply
  cases timeout with
  | none => exact get_reply_core_restores s.ser_pending.length s op_id le_rfl
  | some t =>
      by_cases ht : t = 0
      · simp only [ht, if_pos rfl]
        exact get_reply_core_restores s.ser_pending.length s op_id le_rfl
      · simp only [if_neg ht]
        exact get_reply_core_restores s.ser_pending.length
          { s with ser_timeout := t } op_id le_rfl

end SDS011
